import Mathlib

/-!
Shallow embedding of `src/include/mal_log/frontend_types.hpp` from
mini-async-log: the severity enumeration and the argument-ownership
wrapper structs, together with the severity-filtering predicate the
specification describes, and proofs of the specified properties.
-/

namespace mal

namespace sev

/-- The `sev::severity` enumeration of `frontend_types.hpp` (lines 48-59):
six ordered levels followed by the two sentinels `off` and `invalid`. -/
inductive severity where
  | debug
  | trace
  | notice
  | warning
  | error
  | critical
  | off
  | invalid
deriving DecidableEq, Fintype

/-- The numeric code assigned to each enumerator in the source:
`debug = 0, trace = 1, notice = 2, warning = 3, error = 4, critical = 5,
off = 6, invalid = 7`. -/
def severity.toNat : severity → Nat
  | .debug    => 0
  | .trace    => 1
  | .notice   => 2
  | .warning  => 3
  | .error    => 4
  | .critical => 5
  | .off      => 6
  | .invalid  => 7

/-- A severity is one of the six ordered levels, i.e. neither of the two
sentinels `off` and `invalid`. -/
def severity.isLevel (s : severity) : Prop :=
  s ≠ severity.off ∧ s ≠ severity.invalid

instance (s : severity) : Decidable s.isLevel := by
  unfold severity.isLevel; infer_instance

end sev

/-- Modelled from the spec: the filtering predicate `is_enabled` is part of
this repository's front end but its implementation file is not among the
sources available here; only the `sev::severity` enumeration it compares is.
Spec, section 4.1: "`is_enabled(level, threshold) -> bool`: returns true iff
`level != invalid` and `level >= threshold`", the comparison being the numeric
order of the enumerators. -/
def is_enabled (level threshold : sev.severity) : Bool :=
  decide (level ≠ sev.severity.invalid) &&
  decide (sev.severity.toNat level ≥ sev.severity.toNat threshold)

/-- `uword` (from `util/integer.hpp`): an unsigned machine word used as a
byte count.  No arithmetic is performed on it in this fragment, so it is
embedded as `Nat`. -/
abbrev uword := Nat

/-- A raw machine address (`const void*` / `const char*`), embedded as its
numeric value; the null pointer is address `0`. -/
abbrev Ptr := Nat

/-- The null pointer constant. -/
def nullptr : Ptr := 0

/-- `struct delimited_mem` (lines 61-64): a contiguous byte range given by an
address `mem` and a byte count `size`. -/
structure delimited_mem where
  mem  : Ptr
  size : uword
deriving DecidableEq

/-- `struct deep_copy_bytes : public delimited_mem {};` — adds no members of
its own; inheritance here is pure field reuse. -/
structure deep_copy_bytes extends delimited_mem
deriving DecidableEq

/-- `struct deep_copy_string : public delimited_mem {};` — adds no members of
its own; inheritance here is pure field reuse. -/
structure deep_copy_string extends delimited_mem
deriving DecidableEq

/-- `struct literal_wrapper { const char* lit; };` -/
structure literal_wrapper where
  lit : Ptr
deriving DecidableEq

/-- `struct ptr_wrapper { const void* ptr; };` -/
structure ptr_wrapper where
  ptr : Ptr
deriving DecidableEq

/-- Aggregate construction `deep_copy_bytes{p, n}`: the C++ struct has no
user-declared constructor, so construction just stores the two fields. -/
def deep_copy_bytes.make (p : Ptr) (n : uword) : deep_copy_bytes := ⟨⟨p, n⟩⟩

/-- Aggregate construction `deep_copy_string{p, n}`. -/
def deep_copy_string.make (p : Ptr) (n : uword) : deep_copy_string := ⟨⟨p, n⟩⟩

/-- Aggregate construction `literal_wrapper{lit}`. -/
def literal_wrapper.make (l : Ptr) : literal_wrapper := ⟨l⟩

/-- Aggregate construction `ptr_wrapper{ref}`. -/
def ptr_wrapper.make (r : Ptr) : ptr_wrapper := ⟨r⟩

/-- Claim C1: for every severity `S` and every threshold `T`,
`is_enabled S T` returns true if and only if `S ≠ invalid` and `S ≥ T` under
the numeric order of the severity enumeration. -/
theorem claim_C1_is_enabled_characterisation :
    ∀ S T : sev.severity,
      is_enabled S T = true ↔
        (S ≠ sev.severity.invalid ∧
          sev.severity.toNat S ≥ sev.severity.toNat T) := by
  decide

/-- Claim C2: the severity codes are `debug = 0, trace = 1, notice = 2,
warning = 3, error = 4, critical = 5`, the six levels are strictly ordered
`debug < trace < notice < warning < error < critical` under the numeric
order, the sentinels `off` and `invalid` are distinct from each level and
from each other, and the enumeration is closed: every severity is one of
these eight members. -/
theorem claim_C2_severity_order_and_codes :
    (sev.severity.toNat .debug = 0 ∧ sev.severity.toNat .trace = 1 ∧
     sev.severity.toNat .notice = 2 ∧ sev.severity.toNat .warning = 3 ∧
     sev.severity.toNat .error = 4 ∧ sev.severity.toNat .critical = 5) ∧
    (sev.severity.toNat .debug < sev.severity.toNat .trace ∧
     sev.severity.toNat .trace < sev.severity.toNat .notice ∧
     sev.severity.toNat .notice < sev.severity.toNat .warning ∧
     sev.severity.toNat .warning < sev.severity.toNat .error ∧
     sev.severity.toNat .error < sev.severity.toNat .critical) ∧
    (∀ s : sev.severity, s.isLevel →
      s ≠ sev.severity.off ∧ s ≠ sev.severity.invalid) ∧
    (sev.severity.off ≠ sev.severity.invalid) ∧
    (∀ s : sev.severity,
      s = .debug ∨ s = .trace ∨ s = .notice ∨ s = .warning ∨
      s = .error ∨ s = .critical ∨ s = .off ∨ s = .invalid) := by
  decide

/-- Claim C2, witness: the third conjunct applied at the concrete level
`debug`. -/
theorem claim_C2_severity_order_and_codes_witness :
    sev.severity.isLevel .debug ∧
      (sev.severity.debug ≠ sev.severity.off ∧
       sev.severity.debug ≠ sev.severity.invalid) :=
  ⟨by decide,
   claim_C2_severity_order_and_codes.2.2.1 sev.severity.debug (by decide)⟩

/-- Claim C3: for every threshold `T`, `is_enabled invalid T` returns false:
`invalid` is never enabled as an emission level, for any threshold,
including `off` and `invalid` themselves. -/
theorem claim_C3_invalid_level_never_enabled :
    ∀ T : sev.severity, is_enabled sev.severity.invalid T = false := by
  decide

/-- Claim C4: for every severity `S`, `is_enabled S invalid` returns false:
with `invalid` as the threshold nothing is enabled. -/
theorem claim_C4_invalid_threshold_enables_nothing :
    ∀ S : sev.severity, is_enabled S sev.severity.invalid = false := by
  decide

/-- Claim C5: for every severity level `S` (one of the six ordered levels,
including `critical`), `is_enabled S off` returns false: threshold `off`
disables every level. -/
theorem claim_C5_off_threshold_disables_every_level :
    ∀ S : sev.severity, S.isLevel → is_enabled S sev.severity.off = false := by
  decide

/-- Claim C5, witness: the theorem applied at the concrete level
`critical`. -/
theorem claim_C5_off_threshold_disables_every_level_witness :
    sev.severity.isLevel .critical ∧
      is_enabled sev.severity.critical sev.severity.off = false :=
  ⟨by decide,
   claim_C5_off_threshold_disables_every_level sev.severity.critical
     (by decide)⟩

/-- Claim C6: for every pointer `p` and size `n` with `n > 0`, constructing
`deep_copy_bytes{p, n}` and reading back its `mem` and `size` fields yields
exactly `(p, n)`: construction stores the pair unchanged.  (The struct has
no user-declared constructor, so construction is pure field storage with no
copy, allocation or other side effect.) -/
theorem claim_C6_deep_copy_bytes_stores_pair :
    ∀ (p : Ptr) (n : uword), 0 < n →
      (deep_copy_bytes.make p n).mem = p ∧
        (deep_copy_bytes.make p n).size = n := by
  intro p n _
  exact ⟨rfl, rfl⟩

/-- Claim C6, witness: the theorem applied at the concrete span
`(p, n) = (7, 16)`. -/
theorem claim_C6_deep_copy_bytes_stores_pair_witness :
    0 < 16 ∧
      ((deep_copy_bytes.make 7 16).mem = 7 ∧
        (deep_copy_bytes.make 7 16).size = 16) :=
  ⟨by decide, claim_C6_deep_copy_bytes_stores_pair 7 16 (by decide)⟩

/-- Claim C7: `ptr_wrapper{null}` is constructible (construction is total,
there is no failure case) and its stored `ptr` field equals null. -/
theorem claim_C7_ptr_wrapper_null_representable :
    (ptr_wrapper.make nullptr).ptr = nullptr := rfl

/-- Claim C8: for every address `lit`, constructing `literal_wrapper{lit}`
twice produces two values whose observable fields are identical — the two
values are equal outright, so classification is deterministic, idempotent
and side-effect-free. -/
theorem claim_C8_literal_classification_idempotent :
    ∀ l : Ptr,
      (literal_wrapper.make l).lit = (literal_wrapper.make l).lit ∧
        literal_wrapper.make l = literal_wrapper.make l := by
  intro l
  exact ⟨rfl, rfl⟩

/-- Claim C9: `deep_copy_bytes` and `deep_copy_string` consist of exactly the
two fields of a delimited memory region: each value is determined by its
`(mem, size)` pair, every `delimited_mem` arises as the base of a value of
each variant, and the field-preserving map between the two variants hits
every value — the two are observationally identical records distinguished
only by their type tag. -/
theorem claim_C9_variants_are_pure_field_reuse :
    (∀ a b : deep_copy_bytes, a.mem = b.mem → a.size = b.size → a = b) ∧
    (∀ a b : deep_copy_string, a.mem = b.mem → a.size = b.size → a = b) ∧
    (∀ d : delimited_mem,
      (deep_copy_bytes.mk d).todelimited_mem = d ∧
        (deep_copy_string.mk d).todelimited_mem = d) ∧
    (∀ (a : deep_copy_bytes) (b : deep_copy_string),
      a.mem = b.mem → a.size = b.size →
        deep_copy_string.mk a.todelimited_mem = b) := by
  refine ⟨?_, ?_, ?_, ?_⟩
  · rintro ⟨⟨am, as⟩⟩ ⟨⟨bm, bs⟩⟩ h1 h2
    simp only [deep_copy_bytes.mk.injEq, delimited_mem.mk.injEq]
    exact ⟨h1, h2⟩
  · rintro ⟨⟨am, as⟩⟩ ⟨⟨bm, bs⟩⟩ h1 h2
    simp only [deep_copy_string.mk.injEq, delimited_mem.mk.injEq]
    exact ⟨h1, h2⟩
  · intro d
    exact ⟨rfl, rfl⟩
  · rintro ⟨⟨am, as⟩⟩ ⟨⟨bm, bs⟩⟩ h1 h2
    simp only [deep_copy_string.mk.injEq, delimited_mem.mk.injEq]
    exact ⟨h1, h2⟩

/-- Claim C9, witness: the first conjunct applied at two concrete equal-field
values. -/
theorem claim_C9_variants_are_pure_field_reuse_witness :
    deep_copy_bytes.make 3 4 = deep_copy_bytes.make 3 4 :=
  claim_C9_variants_are_pure_field_reuse.1
    (deep_copy_bytes.make 3 4) (deep_copy_bytes.make 3 4) rfl rfl

/-- Claim C10: construction of `deep_copy_bytes` and `deep_copy_string`
performs no validation: for every pointer `p` (including null) and every
size `n` (including `n > 0` with `p` null), construction succeeds — it is a
total function — and stores `(p, n)` exactly as given. -/
theorem claim_C10_no_construction_validation :
    ∀ (p : Ptr) (n : uword),
      ((deep_copy_bytes.make p n).mem = p ∧
        (deep_copy_bytes.make p n).size = n) ∧
      ((deep_copy_string.make p n).mem = p ∧
        (deep_copy_string.make p n).size = n) := by
  intro p n
  exact ⟨⟨rfl, rfl⟩, ⟨rfl, rfl⟩⟩

end mal
